import Mathlib

/-!
Shallow embedding of the purchase transaction engine of the sltv-backend
repository (`app/api/v1/endpoints/services.py`).

Monetary amounts are embedded as rationals (`ℚ`); Python dict payloads are
embedded as structures holding the fields the endpoints actually construct;
`raise`/`except` control flow is embedded as `Except`; database rows created
through the wallet repository are threaded as explicit lists; email
notifications are fire-and-forget collaborators and are not modelled.
The behaviour of the external vendors (MobileNig, eBills) is an input to
each flow: an `Except`/response value describing what the vendor call
returned or raised.
-/

namespace Sltv

abbrev Money := ℚ

/-- Python `str.lower()`, character-wise (all strings involved are ASCII). -/
def lowerStr (s : String) : String := String.mk (s.data.map Char.toLower)

/-- Python `str.upper()`, character-wise (all strings involved are ASCII). -/
def upperStr (s : String) : String := String.mk (s.data.map Char.toUpper)

/-! ## PriceCalculator (services.py lines 54-69, 188-203, 370-385) -/

/-- `ProfitType` enum of `app.models.service_price`; `other` stands for any
further enum member, which the `if/elif` in the endpoints ignores. -/
inductive ProfitType where
  | fixed
  | percentage
  | other
deriving DecidableEq, Repr

/-- A `ServicePrice` row as read by the endpoints. -/
structure ServicePrice where
  profit_type : ProfitType
  profit_value : Money
deriving DecidableEq, Repr

/-- The profit computation inlined in each purchase endpoint:
`profit = 0.0`, overridden for a FIXED or PERCENTAGE price config. -/
def computeProfit (cost_price : Money) (price_config : Option ServicePrice) : Money :=
  match price_config with
  | none => 0
  | some pc =>
    match pc.profit_type with
    | .fixed => pc.profit_value
    | .percentage => cost_price * (pc.profit_value / 100)
    | .other => 0

/-- `selling_price = cost_price + profit`. -/
def sellingPrice (cost_price : Money) (price_config : Option ServicePrice) : Money :=
  cost_price + computeProfit cost_price price_config

/-! ## IdentifierGenerator (services.py lines 21-27) -/

/-- A wall-clock instant as `datetime.now()` exposes it to `strftime`. -/
structure DateTime6 where
  year : Nat
  month : Nat
  day : Nat
  hour : Nat
  minute : Nat
  second : Nat
deriving DecidableEq, Repr

/-- Ranges every real `datetime.now()` value satisfies. -/
def DateTime6.valid (t : DateTime6) : Prop :=
  1 ≤ t.month ∧ t.month ≤ 12 ∧ 1 ≤ t.day ∧ t.day ≤ 31 ∧
  t.hour ≤ 23 ∧ t.minute ≤ 59 ∧ t.second ≤ 59

instance : DecidablePred DateTime6.valid := by
  unfold DateTime6.valid; infer_instance

/-- Two-digit zero padding, as each `strftime` field directive renders. -/
def pad2 (n : Nat) : String :=
  (if n < 10 then "0" else "") ++ toString n

/-- `datetime.now().strftime("%y%m%d%H%M%S")`. -/
def timestamp12 (t : DateTime6) : String :=
  pad2 (t.year % 100) ++ pad2 t.month ++ pad2 t.day ++
  pad2 t.hour ++ pad2 t.minute ++ pad2 t.second

/-- `string.ascii_uppercase + string.digits`: the 36-symbol alphabet. -/
def idAlphabet : List Char :=
  "ABCDEFGHIJKLMNOPQRSTUVWXYZ0123456789".toList

/-- One draw of `random.choices(idAlphabet)`, indexed by the random choice. -/
def pickChar (i : Fin 36) : Char :=
  idAlphabet.getD i.val 'A'

/-- `''.join(random.choices(string.ascii_uppercase + string.digits, k=3))`. -/
def idSuffix (r₁ r₂ r₃ : Fin 36) : String :=
  String.mk [pickChar r₁, pickChar r₂, pickChar r₃]

/-- `generate_trans_id`: 12-char timestamp followed by a 3-char random
suffix.  The `prefix` argument of the Python function is unused by its body
and omitted; the clock reading and the three random draws are inputs. -/
def generate_trans_id (t : DateTime6) (r₁ r₂ r₃ : Fin 36) : String :=
  timestamp12 t ++ idSuffix r₁ r₂ r₃

/-! ## Ledger data model (wallet repository rows as the endpoints use them) -/

/-- A wallet row. -/
structure Wallet where
  id : Nat
  balance : Money
deriving DecidableEq, Repr

inductive TxType where
  | debit
  | credit
deriving DecidableEq, Repr

inductive TxStatus where
  | processing
  | success
  | failed
deriving DecidableEq, Repr

/-- A `Transaction` row with the fields the endpoints populate.  `id` is
the primary key the store assigns at `create_transaction`. -/
structure Transaction where
  id : Nat
  wallet_id : Nat
  user_id : Nat
  trans_id : String
  amount : Money
  type : TxType
  status : TxStatus
  reference : String
  service_type : String
  meta_data : String
  profit : Money
deriving DecidableEq, Repr

/-- User profile fields the endpoints read; Python `None` for a text field
is folded into the empty string, which is likewise falsy. -/
structure Profile where
  address : String
  phone_number : String
deriving DecidableEq, Repr

/-- The authenticated user as the endpoints see it. -/
structure UserInfo where
  id : Nat
  email : String
  full_name : Option String
  profile : Option Profile
deriving DecidableEq, Repr

/-! ## Vendor interface -/

/-- The nested `data` object of an eBills response. -/
structure EbillsData where
  customer_name : Option String
  token : Option String
deriving DecidableEq, Repr

/-- An eBills Africa JSON response as the endpoints read it. -/
structure EbillsResponse where
  code : String
  message : String
  data : EbillsData
deriving DecidableEq, Repr

/-- Rendering of an eBills response interpolated into audit strings. -/
def EbillsResponse.render (r : EbillsResponse) : String :=
  r.code ++ "/" ++ r.message

/-- The MobileNig payload built by `purchase_airtime`. -/
structure AirtimePayload where
  service_id : String
  phoneNumber : String
  amount : Money
  trans_id : String
  email : String
  customerName : String
  address : String
deriving DecidableEq, Repr

/-- The MobileNig payload built by `purchase_data` — note: no amount field. -/
structure DataPayload where
  service_id : String
  phoneNumber : String
  trans_id : String
  email : String
  customerName : String
  address : String
deriving DecidableEq, Repr

/-- The MobileNig payload built by the generic branch of
`purchase_electricity`. -/
structure ElectricityPayload where
  service_id : String
  meterNumber : String
  amount : Money
  trans_id : String
  phoneNumber : String
  customerDtNumber : String
  customerAddress : String
  customerAccountType : String
  contactType : String
  email : String
  customerName : String
  address : String
deriving DecidableEq, Repr

/-- One outbound vendor call, recording exactly the arguments passed. -/
inductive VendorCall where
  | mnAirtime (p : AirtimePayload)
  | mnData (p : DataPayload)
  | mnElectricity (p : ElectricityPayload)
  | ebVerify (customer_id service_id variation_id : String)
  | ebPurchase (request_id customer_id service_id variation_id : String) (amount : Money)
deriving DecidableEq, Repr

/-- Whether a vendor call is a purchase call (as opposed to verification). -/
def VendorCall.isPurchaseCall : VendorCall → Bool
  | .ebVerify _ _ _ => false
  | _ => true

/-- The monetary amount field of a vendor call's payload, when it has one. -/
def VendorCall.payloadAmount : VendorCall → Option Money
  | .mnAirtime p => some p.amount
  | .mnData _ => none
  | .mnElectricity p => some p.amount
  | .ebVerify _ _ _ => none
  | .ebPurchase _ _ _ _ a => some a

/-- What the vendor environment does on each possible call: the response
returned, or the exception raised, by each external service during this
request. -/
structure VendorEnv where
  mobilenig : Except String String
  ebillsVerify : Except String EbillsResponse
  ebillsPurchase : Except String EbillsResponse
deriving Repr

/-- Whether a vendor call raised. -/
def raised {α : Type} (r : Except String α) : Bool :=
  match r with
  | .error _ => true
  | .ok _ => false

/-! ## Endpoint results -/

/-- What a purchase endpoint returns to the HTTP layer: the success body
`{message, transaction_id}` or a raised `HTTPException(status, detail)`. -/
inductive ApiResult where
  | ok (message : String) (transaction_id : Nat)
  | httpError (status : Nat) (detail : String)
deriving DecidableEq, Repr

/-- Everything observable about one run of a purchase endpoint: the HTTP
result, the final wallet row (when one existed), the transaction rows
created by this request in creation order (with all status updates
applied), and the vendor calls made in order. -/
structure FlowResult where
  result : ApiResult
  wallet : Option Wallet
  transactions : List Transaction
  calls : List VendorCall
deriving DecidableEq, Repr

/-! ## Requests -/

structure AirtimeRequest where
  network : String
  phone_number : String
  amount : Money
deriving DecidableEq, Repr

structure DataRequest where
  network : String
  phone_number : String
  plan_id : String
  amount : Money
deriving DecidableEq, Repr

structure ElectricityRequest where
  provider : String
  meter_number : String
  type : String
  amount : Money
deriving DecidableEq, Repr

structure ElectricityVerifyRequest where
  provider : String
  meter_number : String
  type : String
deriving DecidableEq, Repr

structure TVRequest where
  smart_card_number : String
  value : String
deriving DecidableEq, Repr

/-! ## Purchase endpoints (services.py)

Each endpoint is a function of: the request, the authenticated user, the
price config row found for the service identifier (`none` when the query
returns no row), the user's wallet row (`none` when missing), the primary
key the store will assign to the next created transaction row (the second
created row gets `next_id + 1`), the two identifiers produced by
`generate_trans_id` during the request, and the vendor environment. -/

/-- `POST /airtime` (services.py lines 43-175). -/
def purchase_airtime (req : AirtimeRequest) (user : UserInfo)
    (price_config : Option ServicePrice) (wallet0 : Option Wallet)
    (next_id : Nat) (trans_id refund_trans_id : String)
    (env : VendorEnv) : FlowResult :=
  let cost_price := req.amount
  let profit := computeProfit cost_price price_config
  let selling_price := cost_price + profit
  match wallet0 with
  | none => ⟨.httpError 404 "Wallet not found", none, [], []⟩
  | some wallet =>
    if wallet.balance < selling_price then
      ⟨.httpError 400 "Insufficient funds", some wallet, [], []⟩
    else
      let wallet := { wallet with balance := wallet.balance - selling_price }
      let transaction : Transaction :=
        { id := next_id
          wallet_id := wallet.id
          user_id := user.id
          trans_id := trans_id
          amount := selling_price
          type := .debit
          status := .processing
          reference := "AIRTIME-" ++ toString wallet.id ++ "-" ++ req.phone_number
          service_type := "airtime"
          meta_data := "Network: " ++ req.network
          profit := profit }
      let payload : AirtimePayload :=
        { service_id := req.network
          phoneNumber := req.phone_number
          amount := cost_price
          trans_id := trans_id
          email := user.email
          customerName := user.full_name.getD ""
          address := match user.profile with | some p => p.address | none => "" }
      match env.mobilenig with
      | .ok response =>
        let transaction := { transaction with
          status := .success
          meta_data := transaction.meta_data ++ " | Response: " ++ response }
        ⟨.ok "Airtime purchase successful" transaction.id,
         some wallet, [transaction], [.mnAirtime payload]⟩
      | .error e =>
        let transaction := { transaction with
          status := .failed
          meta_data := transaction.meta_data ++ " | Error: " ++ e }
        let wallet := { wallet with balance := wallet.balance + selling_price }
        let refund_transaction : Transaction :=
          { id := next_id + 1
            wallet_id := wallet.id
            user_id := user.id
            trans_id := refund_trans_id
            amount := selling_price
            type := .credit
            status := .success
            reference := "REFUND-" ++ toString transaction.id
            service_type := "refund"
            meta_data := "Refund for failed Airtime transaction " ++ toString transaction.id
            profit := 0 }
        ⟨.httpError 400 ("Transaction failed: " ++ e),
         some wallet, [transaction, refund_transaction], [.mnAirtime payload]⟩

/-- `POST /data` (services.py lines 177-306). -/
def purchase_data (req : DataRequest) (user : UserInfo)
    (price_config : Option ServicePrice) (wallet0 : Option Wallet)
    (next_id : Nat) (trans_id refund_trans_id : String)
    (env : VendorEnv) : FlowResult :=
  let cost_price := req.amount
  let profit := computeProfit cost_price price_config
  let selling_price := cost_price + profit
  match wallet0 with
  | none => ⟨.httpError 404 "Wallet not found", none, [], []⟩
  | some wallet =>
    if wallet.balance < selling_price then
      ⟨.httpError 400 "Insufficient funds", some wallet, [], []⟩
    else
      let wallet := { wallet with balance := wallet.balance - selling_price }
      let transaction : Transaction :=
        { id := next_id
          wallet_id := wallet.id
          user_id := user.id
          trans_id := trans_id
          amount := selling_price
          type := .debit
          status := .processing
          reference := "DATA-" ++ toString wallet.id ++ "-" ++ req.phone_number
          service_type := "data"
          meta_data := "Plan: " ++ req.plan_id
          profit := profit }
      let payload : DataPayload :=
        { service_id := req.plan_id
          phoneNumber := req.phone_number
          trans_id := trans_id
          email := user.email
          customerName := user.full_name.getD ""
          address := match user.profile with | some p => p.address | none => "" }
      match env.mobilenig with
      | .ok response =>
        let transaction := { transaction with
          status := .success
          meta_data := transaction.meta_data ++ " | Response: " ++ response }
        ⟨.ok "Data purchase successful" transaction.id,
         some wallet, [transaction], [.mnData payload]⟩
      | .error e =>
        let transaction := { transaction with
          status := .failed
          meta_data := transaction.meta_data ++ " | Error: " ++ e }
        let wallet := { wallet with balance := wallet.balance + selling_price }
        let refund_transaction : Transaction :=
          { id := next_id + 1
            wallet_id := wallet.id
            user_id := user.id
            trans_id := refund_trans_id
            amount := selling_price
            type := .credit
            status := .success
            reference := "REFUND-" ++ toString transaction.id
            service_type := "refund"
            meta_data := "Refund for failed Data transaction " ++ toString transaction.id
            profit := 0 }
        ⟨.httpError 400 ("Transaction failed: " ++ e),
         some wallet, [transaction, refund_transaction], [.mnData payload]⟩

/-- The alias test `request.provider.lower() in ["enugu-electric", "eedc",
"eddc"]` used by both electricity endpoints. -/
def isEedcAlias (provider : String) : Bool :=
  lowerStr provider ∈ ["enugu-electric", "eedc", "eddc"]

/-- `POST /electricity` (services.py lines 359-570). -/
def purchase_electricity (req : ElectricityRequest) (user : UserInfo)
    (price_config : Option ServicePrice) (wallet0 : Option Wallet)
    (next_id : Nat) (trans_id refund_trans_id : String)
    (env : VendorEnv) : FlowResult :=
  let cost_price := req.amount
  let profit := computeProfit cost_price price_config
  let selling_price := cost_price + profit
  match wallet0 with
  | none => ⟨.httpError 404 "Wallet not found", none, [], []⟩
  | some wallet =>
    if wallet.balance < selling_price then
      ⟨.httpError 400 "Insufficient funds", some wallet, [], []⟩
    else
      let wallet := { wallet with balance := wallet.balance - selling_price }
      let transaction : Transaction :=
        { id := next_id
          wallet_id := wallet.id
          user_id := user.id
          trans_id := trans_id
          amount := selling_price
          type := .debit
          status := .processing
          reference := "ELEC-" ++ toString wallet.id ++ "-" ++ req.meter_number
          service_type := "electricity"
          meta_data := "Provider: " ++ req.provider ++ ", Type: " ++ req.type
          profit := profit }
      let phone_number : String :=
        match user.profile with
        | some p => if p.phone_number = "" then "08000000000" else p.phone_number
        | none => "08000000000"
      -- the shared failure handler of the endpoint's `except` block
      let failWith : String → List VendorCall → FlowResult := fun e calls =>
        let transaction := { transaction with
          status := .failed
          meta_data := transaction.meta_data ++ " | Error: " ++ e }
        let wallet := { wallet with balance := wallet.balance + selling_price }
        let refund_transaction : Transaction :=
          { id := next_id + 1
            wallet_id := wallet.id
            user_id := user.id
            trans_id := refund_trans_id
            amount := selling_price
            type := .credit
            status := .success
            reference := "REFUND-" ++ toString transaction.id
            service_type := "refund"
            meta_data := "Refund for failed Electricity transaction " ++ toString transaction.id
            profit := 0 }
        ⟨.httpError 400 ("Transaction failed: " ++ e),
         some wallet, [transaction, refund_transaction], calls⟩
      if isEedcAlias req.provider then
        let variation_id := if lowerStr req.type = "postpaid" then "postpaid" else "prepaid"
        let verifyCall : VendorCall := .ebVerify req.meter_number "enugu-electric" variation_id
        -- inner try/except around verification, re-raised as "Verification Error: ..."
        let verifyFailure : Option String :=
          match env.ebillsVerify with
          | .error verify_err => some ("Verification Error: " ++ verify_err)
          | .ok verify_resp =>
            if verify_resp.code = "success" then none
            else some ("Verification Error: " ++
              "Customer Verification Failed: " ++ verify_resp.message)
        match verifyFailure with
        | some e => failWith e [verifyCall]
        | none =>
          let purchaseCall : VendorCall :=
            .ebPurchase trans_id req.meter_number "enugu-electric" variation_id cost_price
          match env.ebillsPurchase with
          | .error e => failWith e [verifyCall, purchaseCall]
          | .ok response =>
            if response.code = "success" then
              let meta1 := transaction.meta_data ++ " | eBills Response: " ++ response.render
              let meta2 :=
                match response.data.token with
                | some token => meta1 ++ " | Token: " ++ token
                | none => meta1
              let transaction := { transaction with status := .success, meta_data := meta2 }
              ⟨.ok "Electricity purchase successful" transaction.id,
               some wallet, [transaction], [verifyCall, purchaseCall]⟩
            else
              failWith ("eBills Error: " ++ response.message) [verifyCall, purchaseCall]
      else
        let payload : ElectricityPayload :=
          { service_id := req.provider
            meterNumber := req.meter_number
            amount := cost_price
            trans_id := trans_id
            phoneNumber := phone_number
            customerDtNumber := "0000"
            customerAddress :=
              match user.profile with
              | some p => if p.address = "" then "Nigeria" else p.address
              | none => "Nigeria"
            customerAccountType := upperStr req.type
            contactType := "LANDLORD"
            email := user.email
            customerName := user.full_name.getD ""
            address := match user.profile with | some p => p.address | none => "" }
        match env.mobilenig with
        | .ok response =>
          let transaction := { transaction with
            status := .success
            meta_data := transaction.meta_data ++ " | Response: " ++ response }
          ⟨.ok "Electricity purchase successful" transaction.id,
           some wallet, [transaction], [.mnElectricity payload]⟩
        | .error e => failWith e [.mnElectricity payload]

/-! ## `POST /electricity/verify` (services.py lines 316-357) -/

/-- Response body of the verify endpoint: `{"status": "success", ...}` with
an optional message and a data object, or a raised `HTTPException`. -/
inductive VerifyResult where
  | ok (message : Option String) (data : EbillsData)
  | httpError (status : Nat) (detail : String)
deriving DecidableEq, Repr

/-- `str()` of a Starlette `HTTPException`, as re-raised by the verify
endpoint's catch-all. -/
def httpExcStr (status : Nat) (detail : String) : String :=
  toString status ++ ": " ++ detail

/-- `POST /electricity/verify`.  The whole body sits in a `try` whose
catch-all re-raises any exception — including the 400 raised on a failed
verification — as a 500. -/
def verify_electricity (req : ElectricityVerifyRequest)
    (env : VendorEnv) : VerifyResult × List VendorCall :=
  let service_id := if isEedcAlias req.provider then "enugu-electric" else req.provider
  if service_id = "enugu-electric" then
    let variation_id := if lowerStr req.type = "postpaid" then "postpaid" else "prepaid"
    let call : VendorCall := .ebVerify req.meter_number service_id variation_id
    match env.ebillsVerify with
    | .error e => (.httpError 500 e, [call])
    | .ok verify_resp =>
      if verify_resp.code = "success" then
        (.ok none verify_resp.data, [call])
      else
        (.httpError 500
          (httpExcStr 400 ("Verification Failed: " ++ verify_resp.message)), [call])
  else
    (.ok (some "Verification skipped for this provider (not fully implemented yet).")
      ⟨some "Verified User", none⟩, [])

/-! ## `POST /tv` (services.py lines 615-644) -/

/-- The rows owned by the wallet repository, threaded through `purchase_tv`
to record what the endpoint does with the ledger (nothing). -/
structure LedgerState where
  wallets : List Wallet
  transactions : List Transaction
deriving DecidableEq, Repr

/-- Result body of the TV endpoint. -/
inductive TvResult where
  | ok (message : String)
  | httpError (status : Nat) (detail : String)
deriving DecidableEq, Repr

/-- What the browser-automation call `vtu_service.purchase_tv` produced:
an exception, or its return value (`none` for a falsy result). -/
def TvVendorOutcome := Except String (Option String)

/-- `POST /tv`: dispatches to the automation vendor and maps its outcome to
a response; the wallet repository dependency is never used. -/
def purchase_tv (outcome : Except String (Option String))
    (ledger : LedgerState) : TvResult × LedgerState :=
  match outcome with
  | .error e =>
    (.httpError 500
      ("Transaction failed with error: " ++ e ++ ". Your wallet has been refunded."),
     ledger)
  | .ok none =>
    (.httpError 400 "Transaction failed. Your wallet has been refunded.", ledger)
  | .ok (some result_message) =>
    if result_message = "" then
      (.httpError 400 "Transaction failed. Your wallet has been refunded.", ledger)
    else
      (.ok result_message, ledger)

/-! ## A purchase attempt, uniformly over the three products -/

/-- One purchase attempt: the product-specific request together with the
vendor environment it runs against. -/
inductive Attempt where
  | airtime (req : AirtimeRequest) (env : VendorEnv)
  | data (req : DataRequest) (env : VendorEnv)
  | electricity (req : ElectricityRequest) (env : VendorEnv)
deriving Repr

/-- The cost price of an attempt (`request.amount` in every endpoint). -/
def Attempt.costPrice : Attempt → Money
  | .airtime req _ => req.amount
  | .data req _ => req.amount
  | .electricity req _ => req.amount

/-- The selling price an attempt is charged under a price config. -/
def Attempt.selling (a : Attempt) (price_config : Option ServicePrice) : Money :=
  sellingPrice a.costPrice price_config

/-- Run the endpoint an attempt addresses. -/
def runAttempt (a : Attempt) (user : UserInfo)
    (price_config : Option ServicePrice) (wallet0 : Option Wallet)
    (next_id : Nat) (trans_id refund_trans_id : String) : FlowResult :=
  match a with
  | .airtime req env =>
    purchase_airtime req user price_config wallet0 next_id trans_id refund_trans_id env
  | .data req env =>
    purchase_data req user price_config wallet0 next_id trans_id refund_trans_id env
  | .electricity req env =>
    purchase_electricity req user price_config wallet0 next_id trans_id refund_trans_id env

/-- Whether the dispatch step of an attempt fails: for airtime and data,
the MobileNig call raises; for electricity, the routed branch's
verification or purchase step raises or returns a non-success code. -/
def Attempt.dispatchFails : Attempt → Bool
  | .airtime _ env => raised env.mobilenig
  | .data _ env => raised env.mobilenig
  | .electricity req env =>
    if isEedcAlias req.provider then
      match env.ebillsVerify with
      | .error _ => true
      | .ok verify_resp =>
        if verify_resp.code = "success" then
          match env.ebillsPurchase with
          | .error _ => true
          | .ok response => !(response.code = "success")
        else true
    else raised env.mobilenig

/-- The two-row shape the refund path leaves behind: a failed debit of the
selling price followed by a success credit of the same amount whose
reference names the debit row's id, with service type `refund` and profit
zero. -/
def refundPair (txs : List Transaction) (sp : Money) : Bool :=
  match txs with
  | [d, c] =>
    d.type = TxType.debit && d.status = TxStatus.failed && d.amount = sp &&
    c.type = TxType.credit && c.status = TxStatus.success && c.amount = sp &&
    c.reference = "REFUND-" ++ toString d.id &&
    c.service_type = "refund" && c.profit = 0
  | _ => false

/-- The one-row shape a successful dispatch leaves behind: a single debit
of the selling price with final status `success`. -/
def successSingle (txs : List Transaction) (sp : Money) : Bool :=
  match txs with
  | [d] => d.type = TxType.debit && d.status = TxStatus.success && d.amount = sp
  | _ => false

/-- Whether the eBills verification step fails: the call raises, or it
returns a response whose code is not `success`. -/
def elecVerifyFails (env : VendorEnv) : Bool :=
  match env.ebillsVerify with
  | .error _ => true
  | .ok vr => !(vr.code = "success")

/-! ## Sample values used to instantiate the theorems -/

def sampleUser : UserInfo :=
  ⟨1, "user@example.com", some "Test User", some ⟨"12 Main, Enugu", "08031234567"⟩⟩

/-- Every vendor call succeeds. -/
def sampleEnvOk : VendorEnv :=
  ⟨.ok "OK", .ok ⟨"success", "verified", ⟨some "JOHN DOE", none⟩⟩,
   .ok ⟨"success", "delivered", ⟨none, some "1111-2222"⟩⟩⟩

/-- MobileNig and the eBills purchase call raise a timeout. -/
def sampleEnvTimeout : VendorEnv :=
  ⟨.error "Vendor timeout", .ok ⟨"success", "verified", ⟨some "JOHN DOE", none⟩⟩,
   .error "Vendor timeout"⟩

/-- eBills verification returns a non-success code. -/
def sampleEnvVerifyFail : VendorEnv :=
  ⟨.ok "OK", .ok ⟨"failure", "invalid meter", ⟨none, none⟩⟩,
   .ok ⟨"success", "delivered", ⟨none, none⟩⟩⟩

end Sltv

namespace Sltv

lemma pad2_length_of_lt {n : Nat} (h : n < 100) : (pad2 n).length = 2 := by
  revert h
  revert n
  decide

lemma timestamp12_length {t : DateTime6} (h : t.valid) :
    (timestamp12 t).length = 12 := by
  obtain ⟨h1, h2, h3, h4, h5, h6, h7⟩ := h
  have hy : t.year % 100 < 100 := Nat.mod_lt _ (by norm_num)
  simp [timestamp12, String.length_append,
    pad2_length_of_lt hy,
    pad2_length_of_lt (lt_of_le_of_lt h2 (by norm_num)),
    pad2_length_of_lt (lt_of_le_of_lt h4 (by norm_num)),
    pad2_length_of_lt (lt_of_le_of_lt h5 (by norm_num)),
    pad2_length_of_lt (lt_of_le_of_lt h6 (by norm_num)),
    pad2_length_of_lt (lt_of_le_of_lt h7 (by norm_num))]

lemma idSuffix_length (r₁ r₂ r₃ : Fin 36) : (idSuffix r₁ r₂ r₃).length = 3 := rfl

lemma pickChar_mem (i : Fin 36) : pickChar i ∈ idAlphabet := by
  revert i
  decide

/-- C3: pricing — an absent rule gives selling price equal to cost price
(profit 0); a fixed rule adds exactly the rule value; a percentage rule
multiplies by `1 + v/100` with profit `cost * v / 100`; any other rule type
behaves like an absent rule, so the computation is total with no error
path, and being a function it is deterministic. -/
theorem C3_pricing (cost_price v : Money) :
    sellingPrice cost_price none = cost_price ∧
    computeProfit cost_price none = 0 ∧
    sellingPrice cost_price (some ⟨.fixed, v⟩) = cost_price + v ∧
    computeProfit cost_price (some ⟨.fixed, v⟩) = v ∧
    sellingPrice cost_price (some ⟨.percentage, v⟩) = cost_price * (1 + v / 100) ∧
    computeProfit cost_price (some ⟨.percentage, v⟩) = cost_price * v / 100 ∧
    sellingPrice cost_price (some ⟨.other, v⟩) = cost_price := by
  refine ⟨?_, rfl, ?_, rfl, ?_, ?_, ?_⟩ <;>
    simp [sellingPrice, computeProfit] <;> ring

/-- C5: `generate_trans_id` always returns exactly 15 characters — a
12-character timestamp followed by 3 characters from the 36-symbol
alphabet A–Z0–9 — so every generated identifier has length ≤ 15. -/
theorem C5_trans_id_length (t : DateTime6) (r₁ r₂ r₃ : Fin 36)
    (h : t.valid) :
    (generate_trans_id t r₁ r₂ r₃).length = 15 ∧
    (timestamp12 t).length = 12 ∧
    (idSuffix r₁ r₂ r₃).length = 3 ∧
    (∀ c ∈ (idSuffix r₁ r₂ r₃).toList, c ∈ idAlphabet) ∧
    (generate_trans_id t r₁ r₂ r₃).length ≤ 15 := by
  have hts := timestamp12_length h
  have hlen : (generate_trans_id t r₁ r₂ r₃).length = 15 := by
    simp [generate_trans_id, String.length_append, hts, idSuffix_length]
  refine ⟨hlen, hts, idSuffix_length r₁ r₂ r₃, ?_, le_of_eq hlen⟩
  intro c hc
  simp [idSuffix, String.toList] at hc
  rcases hc with h | h | h <;> subst h <;> exact pickChar_mem _

/-- Witness for C5 at a concrete clock reading and random draw. -/
theorem C5_trans_id_length_witness :
    (DateTime6.mk 2025 10 12 3 4 5).valid ∧
    (generate_trans_id ⟨2025, 10, 12, 3, 4, 5⟩ 0 0 0).length = 15 :=
  ⟨by decide, (C5_trans_id_length ⟨2025, 10, 12, 3, 4, 5⟩ 0 0 0 (by decide)).1⟩

/-- C1: every purchase attempt (airtime, data or electricity) that passes
admission control and whose dispatch fails leaves the wallet balance equal
to the balance before the attempt, and leaves exactly two transaction rows:
a `failed` debit of the selling price and a `success` credit of the same
amount whose reference names the debit row's id, with service type
`refund` and profit 0. -/
theorem C1_failed_dispatch_refunds (a : Attempt) (user : UserInfo)
    (price_config : Option ServicePrice) (w : Wallet)
    (next_id : Nat) (trans_id refund_trans_id : String)
    (hbal : ¬ w.balance < a.selling price_config)
    (hfail : a.dispatchFails = true) :
    (runAttempt a user price_config (some w) next_id trans_id refund_trans_id).wallet.map
        Wallet.balance = some w.balance ∧
    refundPair
      (runAttempt a user price_config (some w) next_id trans_id refund_trans_id).transactions
      (a.selling price_config) = true := by
  cases a with
  | airtime req env =>
    cases hmn : env.mobilenig with
    | ok v => simp [Attempt.dispatchFails, raised, hmn] at hfail
    | error e =>
      simp only [Attempt.selling, Attempt.costPrice, sellingPrice] at hbal ⊢
      simp [runAttempt, purchase_airtime, hmn, hbal, refundPair, sub_add_cancel_right]
  | data req env =>
    cases hmn : env.mobilenig with
    | ok v => simp [Attempt.dispatchFails, raised, hmn] at hfail
    | error e =>
      simp only [Attempt.selling, Attempt.costPrice, sellingPrice] at hbal ⊢
      simp [runAttempt, purchase_data, hmn, hbal, refundPair, sub_add_cancel_right]
  | electricity req env =>
    simp only [Attempt.selling, Attempt.costPrice, sellingPrice] at hbal ⊢
    simp only [Attempt.dispatchFails] at hfail
    by_cases halias : isEedcAlias req.provider = true
    · simp only [halias, if_true] at hfail
      cases hv : env.ebillsVerify with
      | error e =>
        simp [runAttempt, purchase_electricity, halias, hv, hbal, refundPair,
          sub_add_cancel_right]
      | ok vr =>
        by_cases hcode : vr.code = "success"
        · simp only [hv, hcode, if_true] at hfail
          cases hp : env.ebillsPurchase with
          | error e =>
            simp [runAttempt, purchase_electricity, halias, hv, hcode, hp, hbal, refundPair,
              sub_add_cancel_right]
          | ok resp =>
            simp only [hp] at hfail
            have hrc : ¬ resp.code = "success" := by
              simpa using hfail
            simp [runAttempt, purchase_electricity, halias, hv, hcode, hp, hrc, hbal,
              refundPair, sub_add_cancel_right]
        · simp [runAttempt, purchase_electricity, halias, hv, hcode, hbal, refundPair,
            sub_add_cancel_right]
    · simp only [halias, if_false] at hfail
      rw [Bool.not_eq_true] at halias
      cases hmn : env.mobilenig with
      | ok v => simp [raised, hmn] at hfail
      | error e =>
        simp [runAttempt, purchase_electricity, halias, hmn, hbal, refundPair,
          sub_add_cancel_right]

/-- Witness for C1: an airtime attempt against a timing-out vendor, wallet
balance 100, amount 50: balance restored and a linked refund pair. -/
theorem C1_failed_dispatch_refunds_witness :
    (Attempt.airtime ⟨"mtn", "08012345678", 50⟩ sampleEnvTimeout).dispatchFails = true ∧
    ¬ (Wallet.mk 7 100).balance <
        (Attempt.airtime ⟨"mtn", "08012345678", 50⟩ sampleEnvTimeout).selling none ∧
    (runAttempt (.airtime ⟨"mtn", "08012345678", 50⟩ sampleEnvTimeout) sampleUser none
        (some ⟨7, 100⟩) 10 "T0001" "T0002").wallet.map Wallet.balance = some 100 ∧
    refundPair
      (runAttempt (.airtime ⟨"mtn", "08012345678", 50⟩ sampleEnvTimeout) sampleUser none
        (some ⟨7, 100⟩) 10 "T0001" "T0002").transactions
      ((Attempt.airtime ⟨"mtn", "08012345678", 50⟩ sampleEnvTimeout).selling none) = true := by
  have hbal : ¬ (Wallet.mk 7 100).balance <
      (Attempt.airtime ⟨"mtn", "08012345678", 50⟩ sampleEnvTimeout).selling none := by
    norm_num [Attempt.selling, Attempt.costPrice, sellingPrice, computeProfit]
  refine ⟨rfl, hbal, ?_, ?_⟩
  · exact (C1_failed_dispatch_refunds _ sampleUser none ⟨7, 100⟩ 10 "T0001" "T0002"
      hbal rfl).1
  · exact (C1_failed_dispatch_refunds _ sampleUser none ⟨7, 100⟩ 10 "T0001" "T0002"
      hbal rfl).2

/-- C2: every purchase attempt that passes admission control and whose
dispatch succeeds leaves the wallet balance equal to the balance before
minus the selling price, and leaves exactly one transaction row: a debit of
the selling price with final status `success`. -/
theorem C2_successful_dispatch_single_debit (a : Attempt) (user : UserInfo)
    (price_config : Option ServicePrice) (w : Wallet)
    (next_id : Nat) (trans_id refund_trans_id : String)
    (hbal : ¬ w.balance < a.selling price_config)
    (hok : a.dispatchFails = false) :
    (runAttempt a user price_config (some w) next_id trans_id refund_trans_id).wallet.map
        Wallet.balance = some (w.balance - a.selling price_config) ∧
    successSingle
      (runAttempt a user price_config (some w) next_id trans_id refund_trans_id).transactions
      (a.selling price_config) = true := by
  cases a with
  | airtime req env =>
    cases hmn : env.mobilenig with
    | error e => simp [Attempt.dispatchFails, raised, hmn] at hok
    | ok v =>
      simp only [Attempt.selling, Attempt.costPrice, sellingPrice] at hbal ⊢
      simp [runAttempt, purchase_airtime, hmn, hbal, successSingle]
  | data req env =>
    cases hmn : env.mobilenig with
    | error e => simp [Attempt.dispatchFails, raised, hmn] at hok
    | ok v =>
      simp only [Attempt.selling, Attempt.costPrice, sellingPrice] at hbal ⊢
      simp [runAttempt, purchase_data, hmn, hbal, successSingle]
  | electricity req env =>
    simp only [Attempt.selling, Attempt.costPrice, sellingPrice] at hbal ⊢
    simp only [Attempt.dispatchFails] at hok
    by_cases halias : isEedcAlias req.provider = true
    · simp only [halias, if_true] at hok
      cases hv : env.ebillsVerify with
      | error e => simp [hv] at hok
      | ok vr =>
        by_cases hcode : vr.code = "success"
        · simp only [hv, hcode, if_true] at hok
          cases hp : env.ebillsPurchase with
          | error e => simp [hp] at hok
          | ok resp =>
            simp only [hp] at hok
            have hrc : resp.code = "success" := by simpa using hok
            simp [runAttempt, purchase_electricity, halias, hv, hcode, hp, hrc, hbal,
              successSingle]
        · simp [hv, hcode] at hok
    · simp only [halias, if_false] at hok
      rw [Bool.not_eq_true] at halias
      cases hmn : env.mobilenig with
      | error e => simp [raised, hmn] at hok
      | ok v =>
        simp [runAttempt, purchase_electricity, halias, hmn, hbal, successSingle]

/-- Witness for C2: an airtime attempt against a succeeding vendor, wallet
balance 100, amount 50: balance 50 and one success debit. -/
theorem C2_successful_dispatch_single_debit_witness :
    (Attempt.airtime ⟨"mtn", "08012345678", 50⟩ sampleEnvOk).dispatchFails = false ∧
    (runAttempt (.airtime ⟨"mtn", "08012345678", 50⟩ sampleEnvOk) sampleUser none
        (some ⟨7, 100⟩) 10 "T0001" "T0002").wallet.map Wallet.balance =
      some ((Wallet.mk 7 100).balance -
        (Attempt.airtime ⟨"mtn", "08012345678", 50⟩ sampleEnvOk).selling none) ∧
    successSingle
      (runAttempt (.airtime ⟨"mtn", "08012345678", 50⟩ sampleEnvOk) sampleUser none
        (some ⟨7, 100⟩) 10 "T0001" "T0002").transactions
      ((Attempt.airtime ⟨"mtn", "08012345678", 50⟩ sampleEnvOk).selling none) = true := by
  have hbal : ¬ (Wallet.mk 7 100).balance <
      (Attempt.airtime ⟨"mtn", "08012345678", 50⟩ sampleEnvOk).selling none := by
    norm_num [Attempt.selling, Attempt.costPrice, sellingPrice, computeProfit]
  exact ⟨rfl, (C2_successful_dispatch_single_debit _ sampleUser none ⟨7, 100⟩ 10
      "T0001" "T0002" hbal rfl).1,
    (C2_successful_dispatch_single_debit _ sampleUser none ⟨7, 100⟩ 10
      "T0001" "T0002" hbal rfl).2⟩

/-- C4: a missing wallet is rejected with 404 and an insufficient balance
(strictly below the selling price) with 400 `Insufficient funds`; in both
cases the wallet is untouched, no transaction row of any kind is created
and no vendor call is made. -/
theorem C4_admission_control_no_side_effects (a : Attempt) (user : UserInfo)
    (price_config : Option ServicePrice)
    (next_id : Nat) (trans_id refund_trans_id : String) :
    runAttempt a user price_config none next_id trans_id refund_trans_id =
      ⟨.httpError 404 "Wallet not found", none, [], []⟩ ∧
    ∀ w : Wallet, w.balance < a.selling price_config →
      runAttempt a user price_config (some w) next_id trans_id refund_trans_id =
        ⟨.httpError 400 "Insufficient funds", some w, [], []⟩ := by
  constructor
  · cases a <;> rfl
  · intro w hw
    cases a with
    | airtime req env =>
      simp only [Attempt.selling, Attempt.costPrice, sellingPrice] at hw
      simp [runAttempt, purchase_airtime, hw]
    | data req env =>
      simp only [Attempt.selling, Attempt.costPrice, sellingPrice] at hw
      simp [runAttempt, purchase_data, hw]
    | electricity req env =>
      simp only [Attempt.selling, Attempt.costPrice, sellingPrice] at hw
      simp [runAttempt, purchase_electricity, hw]

/-- Witness for C4: balance 10 against selling price 50, and a missing
wallet. -/
theorem C4_admission_control_no_side_effects_witness :
    runAttempt (.airtime ⟨"mtn", "08012345678", 50⟩ sampleEnvOk) sampleUser none none
      10 "T0001" "T0002" = ⟨.httpError 404 "Wallet not found", none, [], []⟩ ∧
    (Wallet.mk 7 10).balance <
      (Attempt.airtime ⟨"mtn", "08012345678", 50⟩ sampleEnvOk).selling none ∧
    runAttempt (.airtime ⟨"mtn", "08012345678", 50⟩ sampleEnvOk) sampleUser none
      (some ⟨7, 10⟩) 10 "T0001" "T0002" =
      ⟨.httpError 400 "Insufficient funds", some ⟨7, 10⟩, [], []⟩ := by
  have hlt : (Wallet.mk 7 10).balance <
      (Attempt.airtime ⟨"mtn", "08012345678", 50⟩ sampleEnvOk).selling none := by
    norm_num [Attempt.selling, Attempt.costPrice, sellingPrice, computeProfit]
  exact ⟨(C4_admission_control_no_side_effects _ sampleUser none 10 "T0001" "T0002").1, hlt,
    (C4_admission_control_no_side_effects _ sampleUser none 10 "T0001" "T0002").2 ⟨7, 10⟩ hlt⟩

/-- C6: a provider string lower-casing to `eedc`, `eddc` or `enugu-electric`
routes the electricity purchase to the verifying eBills adapter (its first
vendor call is the eBills verification), and every other provider string
routes to the generic MobileNig adapter (its one vendor call is the
MobileNig purchase with that provider as service id) — no provider string
is rejected before dispatch. -/
theorem C6_electricity_alias_routing (req : ElectricityRequest) (user : UserInfo)
    (price_config : Option ServicePrice) (w : Wallet)
    (next_id : Nat) (trans_id refund_trans_id : String) (env : VendorEnv)
    (hbal : ¬ w.balance < sellingPrice req.amount price_config) :
    (isEedcAlias req.provider = true ↔
      (lowerStr req.provider = "enugu-electric" ∨ lowerStr req.provider = "eedc" ∨
        lowerStr req.provider = "eddc")) ∧
    (isEedcAlias req.provider = true →
      ∃ rest, (purchase_electricity req user price_config (some w) next_id trans_id
          refund_trans_id env).calls =
        .ebVerify req.meter_number "enugu-electric"
          (if lowerStr req.type = "postpaid" then "postpaid" else "prepaid") :: rest) ∧
    (isEedcAlias req.provider = false →
      ∃ p : ElectricityPayload, p.service_id = req.provider ∧
        (purchase_electricity req user price_config (some w) next_id trans_id
          refund_trans_id env).calls = [.mnElectricity p]) := by
  refine ⟨?_, ?_, ?_⟩
  · simp [isEedcAlias]
  · intro halias
    simp only [sellingPrice] at hbal
    cases hv : env.ebillsVerify with
    | error e =>
      simp [purchase_electricity, halias, hv, hbal]
    | ok vr =>
      by_cases hcode : vr.code = "success"
      · cases hp : env.ebillsPurchase with
        | error e =>
          simp [purchase_electricity, halias, hv, hcode, hp, hbal]
        | ok resp =>
          by_cases hrc : resp.code = "success"
          · simp [purchase_electricity, halias, hv, hcode, hp, hrc, hbal]
          · simp [purchase_electricity, halias, hv, hcode, hp, hrc, hbal]
      · simp [purchase_electricity, halias, hv, hcode, hbal]
  · intro halias
    rw [Bool.eq_false_iff, Ne, Bool.not_eq_true] at halias
    simp only [sellingPrice] at hbal
    cases hmn : env.mobilenig with
    | ok v =>
      simp [purchase_electricity, halias, hmn, hbal]
    | error e =>
      simp [purchase_electricity, halias, hmn, hbal]

/-- Witness for C6: `"EEDC"` routes to eBills, `"ph-disco"` to MobileNig. -/
theorem C6_electricity_alias_routing_witness :
    isEedcAlias "EEDC" = true ∧ isEedcAlias "ph-disco" = false ∧
    (∃ rest, (purchase_electricity ⟨"EEDC", "44000111222", "prepaid", 50⟩ sampleUser none
        (some ⟨7, 100⟩) 10 "T0001" "T0002" sampleEnvOk).calls =
      .ebVerify "44000111222" "enugu-electric"
        (if lowerStr "prepaid" = "postpaid" then "postpaid" else "prepaid") :: rest) ∧
    (∃ p : ElectricityPayload, p.service_id = "ph-disco" ∧
      (purchase_electricity ⟨"ph-disco", "44000111222", "prepaid", 50⟩ sampleUser none
        (some ⟨7, 100⟩) 10 "T0001" "T0002" sampleEnvOk).calls = [.mnElectricity p]) := by
  have hbal : ¬ (Wallet.mk 7 100).balance < sellingPrice (50 : Money) none := by
    norm_num [sellingPrice, computeProfit]
  refine ⟨by decide, by decide, ?_, ?_⟩
  · exact (C6_electricity_alias_routing ⟨"EEDC", "44000111222", "prepaid", 50⟩ sampleUser
      none ⟨7, 100⟩ 10 "T0001" "T0002" sampleEnvOk hbal).2.1 (by decide)
  · exact (C6_electricity_alias_routing ⟨"ph-disco", "44000111222", "prepaid", 50⟩ sampleUser
      none ⟨7, 100⟩ 10 "T0001" "T0002" sampleEnvOk hbal).2.2 (by decide)

/-- C7: for an electricity purchase routed to the verifying vendor, the
eBills verification is the first vendor call, and when the verification
raises or returns a non-success code the vendor purchase call is never
made (the verification call is the only one) while the failure is handled
exactly like a vendor failure: balance restored and a linked refund pair of
transaction rows. -/
theorem C7_verification_gates_purchase (req : ElectricityRequest) (user : UserInfo)
    (price_config : Option ServicePrice) (w : Wallet)
    (next_id : Nat) (trans_id refund_trans_id : String) (env : VendorEnv)
    (hbal : ¬ w.balance < sellingPrice req.amount price_config)
    (halias : isEedcAlias req.provider = true) :
    (purchase_electricity req user price_config (some w) next_id trans_id
        refund_trans_id env).calls.head? =
      some (.ebVerify req.meter_number "enugu-electric"
        (if lowerStr req.type = "postpaid" then "postpaid" else "prepaid")) ∧
    (elecVerifyFails env = true →
      (purchase_electricity req user price_config (some w) next_id trans_id
          refund_trans_id env).calls =
        [.ebVerify req.meter_number "enugu-electric"
          (if lowerStr req.type = "postpaid" then "postpaid" else "prepaid")] ∧
      (purchase_electricity req user price_config (some w) next_id trans_id
          refund_trans_id env).wallet.map Wallet.balance = some w.balance ∧
      refundPair
        (purchase_electricity req user price_config (some w) next_id trans_id
          refund_trans_id env).transactions (sellingPrice req.amount price_config) = true) := by
  simp only [sellingPrice] at hbal ⊢
  cases hv : env.ebillsVerify with
  | error e =>
    constructor
    · simp [purchase_electricity, halias, hv, hbal]
    · intro _
      simp [purchase_electricity, halias, hv, hbal, refundPair, sub_add_cancel_right]
  | ok vr =>
    by_cases hcode : vr.code = "success"
    · constructor
      · cases hp : env.ebillsPurchase with
        | error e => simp [purchase_electricity, halias, hv, hcode, hp, hbal]
        | ok resp =>
          by_cases hrc : resp.code = "success"
          · simp [purchase_electricity, halias, hv, hcode, hp, hrc, hbal]
          · simp [purchase_electricity, halias, hv, hcode, hp, hrc, hbal]
      · intro hvf
        simp [elecVerifyFails, hv, hcode] at hvf
    · constructor
      · simp [purchase_electricity, halias, hv, hcode, hbal]
      · intro _
        simp [purchase_electricity, halias, hv, hcode, hbal, refundPair, sub_add_cancel_right]

/-- Witness for C7: provider `"EEDC"` with a failing verification: only the
verify call happens, balance restored, refund pair created. -/
theorem C7_verification_gates_purchase_witness :
    isEedcAlias "EEDC" = true ∧ elecVerifyFails sampleEnvVerifyFail = true ∧
    (purchase_electricity ⟨"EEDC", "44000111222", "prepaid", 50⟩ sampleUser none
        (some ⟨7, 100⟩) 10 "T0001" "T0002" sampleEnvVerifyFail).calls =
      [.ebVerify "44000111222" "enugu-electric"
        (if lowerStr "prepaid" = "postpaid" then "postpaid" else "prepaid")] ∧
    (purchase_electricity ⟨"EEDC", "44000111222", "prepaid", 50⟩ sampleUser none
        (some ⟨7, 100⟩) 10 "T0001" "T0002" sampleEnvVerifyFail).wallet.map Wallet.balance =
      some (Wallet.mk 7 100).balance ∧
    refundPair
      (purchase_electricity ⟨"EEDC", "44000111222", "prepaid", 50⟩ sampleUser none
        (some ⟨7, 100⟩) 10 "T0001" "T0002" sampleEnvVerifyFail).transactions
      (sellingPrice (50 : Money) none) = true := by
  have hbal : ¬ (Wallet.mk 7 100).balance < sellingPrice (50 : Money) none := by
    norm_num [sellingPrice, computeProfit]
  have h := C7_verification_gates_purchase ⟨"EEDC", "44000111222", "prepaid", 50⟩ sampleUser
    none ⟨7, 100⟩ 10 "T0001" "T0002" sampleEnvVerifyFail hbal (by decide)
  exact ⟨by decide, rfl, (h.2 rfl).1, (h.2 rfl).2.1, (h.2 rfl).2.2⟩

/-- C8 counterexample: in the data purchase the claim "the amount passed to
the external vendor in the purchase call is the cost price" fails — the
MobileNig data payload carries no amount at all. -/
theorem C8_data_payload_has_no_amount :
    ¬ (∀ c ∈ (purchase_data ⟨"mtn", "08012345678", "plan-99", 50⟩ sampleUser none
          (some ⟨7, 100⟩) 10 "T0001" "T0002" sampleEnvOk).calls,
        VendorCall.isPurchaseCall c = true →
        VendorCall.payloadAmount c = some (50 : Money)) := by
  intro h
  have hcalls : (purchase_data ⟨"mtn", "08012345678", "plan-99", 50⟩ sampleUser none
      (some ⟨7, 100⟩) 10 "T0001" "T0002" sampleEnvOk).calls =
      [VendorCall.mnData ⟨"plan-99", "08012345678", "T0001",
        "user@example.com", "Test User", "12 Main, Enugu"⟩] := by
    norm_num [purchase_data, sampleUser, sampleEnvOk, computeProfit]
  rw [hcalls] at h
  have h2 := h _ (List.mem_singleton_self _) rfl
  simp [VendorCall.payloadAmount] at h2

/-- C8 as amended: every vendor purchase call of an airtime or electricity
attempt passes exactly the cost price (never the selling price), the data
purchase call passes no amount at all, and in every flow the debit
transaction row charges the wallet the selling price. -/
theorem C8_vendor_gets_cost_price (a : Attempt) (user : UserInfo)
    (price_config : Option ServicePrice) (w : Wallet)
    (next_id : Nat) (trans_id refund_trans_id : String)
    (hbal : ¬ w.balance < a.selling price_config) :
    (∀ c ∈ (runAttempt a user price_config (some w) next_id trans_id refund_trans_id).calls,
        c.isPurchaseCall = true →
        c.payloadAmount = (match a with
          | .data _ _ => none
          | _ => some a.costPrice)) ∧
    (∀ tx ∈ (runAttempt a user price_config (some w) next_id trans_id
        refund_trans_id).transactions,
        tx.type = TxType.debit → tx.amount = a.selling price_config) := by
  cases a with
  | airtime req env =>
    simp only [Attempt.selling, Attempt.costPrice, sellingPrice] at hbal ⊢
    cases hmn : env.mobilenig with
    | ok v =>
      simp [runAttempt, purchase_airtime, hmn, hbal, VendorCall.isPurchaseCall,
        VendorCall.payloadAmount]
    | error e =>
      simp [runAttempt, purchase_airtime, hmn, hbal, VendorCall.isPurchaseCall,
        VendorCall.payloadAmount]
  | data req env =>
    simp only [Attempt.selling, Attempt.costPrice, sellingPrice] at hbal ⊢
    cases hmn : env.mobilenig with
    | ok v =>
      simp [runAttempt, purchase_data, hmn, hbal, VendorCall.isPurchaseCall,
        VendorCall.payloadAmount]
    | error e =>
      simp [runAttempt, purchase_data, hmn, hbal, VendorCall.isPurchaseCall,
        VendorCall.payloadAmount]
  | electricity req env =>
    simp only [Attempt.selling, Attempt.costPrice, sellingPrice] at hbal ⊢
    by_cases halias : isEedcAlias req.provider = true
    · cases hv : env.ebillsVerify with
      | error e =>
        simp [runAttempt, purchase_electricity, halias, hv, hbal,
          VendorCall.isPurchaseCall, VendorCall.payloadAmount]
      | ok vr =>
        by_cases hcode : vr.code = "success"
        · cases hp : env.ebillsPurchase with
          | error e =>
            simp [runAttempt, purchase_electricity, halias, hv, hcode, hp, hbal,
              VendorCall.isPurchaseCall, VendorCall.payloadAmount]
          | ok resp =>
            by_cases hrc : resp.code = "success"
            · simp [runAttempt, purchase_electricity, halias, hv, hcode, hp, hrc, hbal,
                VendorCall.isPurchaseCall, VendorCall.payloadAmount]
            · simp [runAttempt, purchase_electricity, halias, hv, hcode, hp, hrc, hbal,
                VendorCall.isPurchaseCall, VendorCall.payloadAmount]
        · simp [runAttempt, purchase_electricity, halias, hv, hcode, hbal,
            VendorCall.isPurchaseCall, VendorCall.payloadAmount]
    · rw [Bool.not_eq_true] at halias
      cases hmn : env.mobilenig with
      | ok v =>
        simp [runAttempt, purchase_electricity, halias, hmn, hbal,
          VendorCall.isPurchaseCall, VendorCall.payloadAmount]
      | error e =>
        simp [runAttempt, purchase_electricity, halias, hmn, hbal,
          VendorCall.isPurchaseCall, VendorCall.payloadAmount]

/-- Witness for the amended C8: a concrete airtime attempt. -/
theorem C8_vendor_gets_cost_price_witness :
    (∀ c ∈ (runAttempt (.airtime ⟨"mtn", "08012345678", 50⟩ sampleEnvOk) sampleUser none
        (some ⟨7, 100⟩) 10 "T0001" "T0002").calls,
      c.isPurchaseCall = true → c.payloadAmount = some (50 : Money)) ∧
    (∀ tx ∈ (runAttempt (.airtime ⟨"mtn", "08012345678", 50⟩ sampleEnvOk) sampleUser none
        (some ⟨7, 100⟩) 10 "T0001" "T0002").transactions,
      tx.type = TxType.debit →
      tx.amount = (Attempt.airtime ⟨"mtn", "08012345678", 50⟩ sampleEnvOk).selling none) := by
  have hbal : ¬ (Wallet.mk 7 100).balance <
      (Attempt.airtime ⟨"mtn", "08012345678", 50⟩ sampleEnvOk).selling none := by
    norm_num [Attempt.selling, Attempt.costPrice, sellingPrice, computeProfit]
  exact ⟨(C8_vendor_gets_cost_price _ sampleUser none ⟨7, 100⟩ 10 "T0001" "T0002" hbal).1,
    (C8_vendor_gets_cost_price _ sampleUser none ⟨7, 100⟩ 10 "T0001" "T0002" hbal).2⟩

/-- C9: the TV purchase endpoint never reads or modifies the ledger: the
wallet and transaction rows are returned untouched for every vendor
outcome, and the endpoint's response does not depend on the ledger at
all. -/
theorem C9_tv_purchase_no_ledger_effect (outcome : Except String (Option String))
    (ledger ledger' : LedgerState) :
    (purchase_tv outcome ledger).2 = ledger ∧
    (purchase_tv outcome ledger).1 = (purchase_tv outcome ledger').1 := by
  rcases outcome with e | m
  · simp [purchase_tv]
  · rcases m with _ | msg
    · simp [purchase_tv]
    · by_cases h : msg = "" <;> simp [purchase_tv, h]

/-- C10: for every provider string that is not an alias of the canonical
verifying vendor, the standalone verification endpoint returns a success
body with placeholder customer name `Verified User` and a skip message,
and makes no vendor call — so it can never fail for such a provider. -/
theorem C10_verify_skips_unknown_provider (req : ElectricityVerifyRequest)
    (env : VendorEnv) (h : isEedcAlias req.provider = false) :
    verify_electricity req env =
      (.ok (some "Verification skipped for this provider (not fully implemented yet).")
        ⟨some "Verified User", none⟩, []) := by
  have hne : ¬ (req.provider = "enugu-electric") := by
    intro he
    rw [he] at h
    simp [isEedcAlias] at h
    exact h.1 (by decide)
  rw [Bool.eq_false_iff, Ne, Bool.not_eq_true] at h
  simp [verify_electricity, h, hne]

/-- Witness for C10 at the concrete provider `"ph-disco"`. -/
theorem C10_verify_skips_unknown_provider_witness :
    isEedcAlias "ph-disco" = false ∧
    verify_electricity ⟨"ph-disco", "44000111222", "prepaid"⟩ sampleEnvOk =
      (.ok (some "Verification skipped for this provider (not fully implemented yet).")
        ⟨some "Verified User", none⟩, []) :=
  ⟨by decide, C10_verify_skips_unknown_provider _ sampleEnvOk (by decide)⟩

end Sltv
